import Mathlib

/-!
# Verification of the fixflow bounty-bot coordination core

Shallow embedding of the bounty routes (`routes/bounty.js`), the MNEE
payment service (`services/mnee.js`), the database schema (`db.js`) and
the escalation scheduler wiring (`index.js`), together with proofs of
the specification's claims about them.

JavaScript numbers appearing as monetary amounts are modelled as
rationals (`ℚ`); atomic token units as integers (`ℤ`); identifiers as
naturals.  A JavaScript value that may be `undefined` is modelled as an
`Option`; JavaScript truthiness of strings and numbers is modelled
explicitly (`""` and `0` are falsy).
-/

namespace Fixflow

/-- JS truthiness for an optional string field: `!x` is true when the
field is absent or the empty string. -/
def falsyS : Option String → Bool
  | none => true
  | some s => s = ""

/-- JS truthiness for an optional numeric (rational) field: `!x` is true
when the field is absent or zero. -/
def falsyQ : Option ℚ → Bool
  | none => true
  | some q => q = 0

/-- JS truthiness for an optional natural-number field. -/
def falsyN : Option Nat → Bool
  | none => true
  | some n => n = 0

/-- External side-effecting calls to the two rails (escrow chain,
payout network).  A call trace records which rail calls an operation
performed. -/
inductive RailCall
  | escrowFund
  | escrowEscalate
  | escrowRelease
  | payoutTransfer
  | payoutBalance
  | payoutFaucet
  deriving DecidableEq, Repr

/-! ## Ledger schema (`db.js`, `initDb`)

The `bounties` table from `initDb`:

```
id SERIAL PRIMARY KEY,
bounty_id INTEGER UNIQUE NOT NULL,
repository VARCHAR(255) NOT NULL,
issue_id INTEGER NOT NULL,
...
status VARCHAR(50) DEFAULT 'active',
...
```

The only uniqueness constraints are the primary key `id` and
`bounty_id UNIQUE`; the indexes on `(repository, status, created_at)`,
`(status, last_escalation)`, `(repository)` and `(bounty_id)` are plain
(non-unique) indexes. -/

/-- A row of the `bounties` table as created by `initDb`. -/
structure BountyRow where
  id : Nat
  bounty_id : Nat
  repository : String
  issue_id : Nat
  issue_url : String
  initial_amount : ℚ
  current_amount : ℚ
  max_amount : ℚ
  status : String
  solver : Option String
  claimed_amount : Option ℚ
  transaction_hash : String
  claim_transaction_hash : Option String
  block_number : Nat
  pull_request_url : Option String
  escalation_count : Nat
  last_escalation : Option Nat
  deriving DecidableEq, Repr

/-- A row template with the column defaults of the schema filled in
(`status DEFAULT 'active'`, `escalation_count DEFAULT 0`). -/
def defaultRow : BountyRow :=
  { id := 0, bounty_id := 0, repository := "", issue_id := 0, issue_url := ""
    initial_amount := 0, current_amount := 0, max_amount := 0
    status := "active", solver := none, claimed_amount := none
    transaction_hash := "", claim_transaction_hash := none, block_number := 0
    pull_request_url := none, escalation_count := 0, last_escalation := none }

/-- The uniqueness constraints enforced by the schema of `initDb` on a
pair of (distinct) rows: the primary key `id` and the
`bounty_id INTEGER UNIQUE` column.  No other column carries a
uniqueness constraint in the schema. -/
def rowsCompatible (a b : BountyRow) : Bool :=
  a.id ≠ b.id ∧ a.bounty_id ≠ b.bounty_id

/-- A table state is admitted by the schema created in `initDb` when
every pair of distinct rows respects the two uniqueness constraints
(`id` primary key, `bounty_id UNIQUE`). -/
def schemaAdmits : List BountyRow → Bool
  | [] => true
  | r :: rs => rs.all (rowsCompatible r) && schemaAdmits rs

theorem schemaAdmits_iff_pairwise (rows : List BountyRow) :
    schemaAdmits rows = true ↔
      rows.Pairwise (fun a b => a.id ≠ b.id ∧ a.bounty_id ≠ b.bounty_id) := by
  induction rows with
  | nil => simp [schemaAdmits]
  | cons r rs ih =>
    simp only [schemaAdmits, Bool.and_eq_true, List.all_eq_true, List.pairwise_cons, ih,
      rowsCompatible]
    constructor
    · rintro ⟨h1, h2⟩
      exact ⟨fun b hb => by simpa using of_decide_eq_true (h1 b hb), h2⟩
    · rintro ⟨h1, h2⟩
      exact ⟨fun b hb => decide_eq_true (by simpa using h1 b hb), h2⟩

/-! ## MNEE payment service (`services/mnee.js`) -/

/-- A fee tier of the remote MNEE configuration: an inclusive range of
atomic amounts and the fee (in atomic units) charged inside it. -/
structure FeeTier where
  min : ℤ
  max : ℤ
  fee : ℤ
  deriving DecidableEq, Repr

/-- The remote MNEE configuration fetched by `initialize`
(`this.mneeConfig = await this.mnee.config()`). -/
structure MneeConfig where
  decimals : Nat
  tokenId : String
  fees : List FeeTier
  deriving DecidableEq, Repr

/-- Character class `[a-km-zA-HJ-NP-Z1-9]` of the address regex in
`validateAddress`. -/
def isAddrBodyChar (c : Char) : Bool :=
  ('a' ≤ c && c ≤ 'k') || ('m' ≤ c && c ≤ 'z') ||
  ('A' ≤ c && c ≤ 'H') || ('J' ≤ c && c ≤ 'N') || ('P' ≤ c && c ≤ 'Z') ||
  ('1' ≤ c && c ≤ '9')

/-- `MneePaymentService.validateAddress`: tests the address against the
regex `/^[13][a-km-zA-HJ-NP-Z1-9]{25,34}$/`; the surrounding
`try`/`catch` returns `false` on any internal error, so the function is
total and boolean-valued. -/
def validateAddress (address : String) : Bool :=
  match address.data with
  | [] => false
  | c :: rest =>
      (c = '1' || c = '3') && decide (25 ≤ rest.length) &&
        decide (rest.length ≤ 34) && rest.all isAddrBodyChar

/-- The address shape accepted by the regex, stated declaratively: a
first character `1` or `3` followed by 25 to 34 characters from the
class `[a-km-zA-HJ-NP-Z1-9]`. -/
def AddressShape (address : String) : Prop :=
  ∃ c rest, address.data = c :: rest ∧ (c = '1' ∨ c = '3') ∧
    25 ≤ rest.length ∧ rest.length ≤ 34 ∧ ∀ ch ∈ rest, isAddrBodyChar ch = true

/-- The client object constructed by `new MneeClass({environment, apiKey})`. -/
structure MneeClient where
  environment : String
  apiKey : String
  deriving DecidableEq, Repr

/-- Mutable fields of `MneePaymentService` set in the constructor:
`this.mnee = null; this.mneeConfig = null; this.initialized = false`. -/
structure MneeServiceState where
  mnee : Option MneeClient
  mneeConfig : Option MneeConfig
  initialized : Bool
  deriving DecidableEq, Repr

/-- The state established by the `MneePaymentService` constructor. -/
def mneeInitialState : MneeServiceState :=
  { mnee := none, mneeConfig := none, initialized := false }

/-- Environment variables consulted by the MNEE service. -/
structure MneeEnv where
  MNEE_ENVIRONMENT : Option String
  MNEE_API_KEY : Option String
  MNEE_BOT_WIF : Option String
  MNEE_BOT_ADDRESS : Option String
  deriving Repr

/-- `MneePaymentService.initialize`: loads the SDK (failure throws),
requires `MNEE_API_KEY` (falsy value throws), constructs the client with
environment defaulting to `'sandbox'`, then fetches the remote
configuration; `this.initialized = true` is reached only after the
configuration fetch succeeds.  The outcome of the dynamic SDK import and
of the network fetch `this.mnee.config()` are inputs.  Returns the new
mutable state paired with `some errorMessage` when the call throws. -/
def mneeInitialize (sdkLoaded : Bool) (configFetch : Except String MneeConfig)
    (env : MneeEnv) (st : MneeServiceState) : MneeServiceState × Option String :=
  if !sdkLoaded then
    (st, some "MNEE SDK not loaded. Please run: npm install @mnee/ts-sdk")
  else if falsyS env.MNEE_API_KEY then
    (st, some "MNEE_API_KEY not set in environment variables")
  else
    let environment := match env.MNEE_ENVIRONMENT with
      | none => "sandbox"
      | some e => if e = "" then "sandbox" else e
    let st1 := { st with mnee := some ⟨environment, env.MNEE_API_KEY.getD ""⟩ }
    match configFetch with
    | .error e => (st1, some e)
    | .ok cfg => ({ st1 with mneeConfig := some cfg, initialized := true }, none)

/-- Result of `sendPayment`: the object returned on success. -/
structure PaymentResult where
  transactionId : String
  amount : ℚ
  recipient : String
  bountyId : Nat
  deriving DecidableEq, Repr

/-- `MneePaymentService.sendPayment`: throws `'MNEE payment service not
initialized'` before anything else when `this.initialized` is false;
then requires `MNEE_BOT_WIF` and performs the single transfer call on
the payment rail (whose outcome is the `transfer` input).  Returns the
result or error message together with the rail-call trace. -/
def sendPayment (transfer : Except String String) (env : MneeEnv)
    (st : MneeServiceState) (recipientAddress : String) (amount : ℚ)
    (bountyId : Nat) : Except String PaymentResult × List RailCall :=
  if !st.initialized then
    (.error "MNEE payment service not initialized", [])
  else if falsyS env.MNEE_BOT_WIF then
    (.error "MNEE bot WIF not configured", [])
  else
    match transfer with
    | .error e => (.error e, [.payoutTransfer])
    | .ok txId =>
        (.ok { transactionId := txId, amount := amount,
               recipient := recipientAddress, bountyId := bountyId },
         [.payoutTransfer])

/-- Result of `getBalance` on success. -/
structure BalanceResult where
  address : String
  balance : ℚ
  pending : ℚ
  total : ℚ
  deriving DecidableEq, Repr

/-- `MneePaymentService.getBalance`: throws `'MNEE payment service not
initialized'` when `this.initialized` is false, before any rail call;
then requires `MNEE_BOT_ADDRESS` and queries the payment rail
(`this.mnee.balance(address)`, outcome given by `balanceCall`; `pending`
may be absent and defaults to 0). -/
def getBalance (balanceCall : Except String (ℚ × Option ℚ)) (env : MneeEnv)
    (st : MneeServiceState) : Except String BalanceResult × List RailCall :=
  if !st.initialized then
    (.error "MNEE payment service not initialized", [])
  else if falsyS env.MNEE_BOT_ADDRESS then
    (.error "MNEE bot address not configured", [])
  else
    match balanceCall with
    | .error e => (.error e, [.payoutBalance])
    | .ok (bal, pend) =>
        (.ok { address := env.MNEE_BOT_ADDRESS.getD "", balance := bal,
               pending := pend.getD 0, total := bal + pend.getD 0 },
         [.payoutBalance])

/-- Whether an atomic amount falls in a fee tier's inclusive range
(`atomicAmount >= tier.min && atomicAmount <= tier.max`). -/
def inTier (t : FeeTier) (x : ℤ) : Bool :=
  decide (t.min ≤ x) && decide (x ≤ t.max)

/-- `MneePaymentService.calculateFee`: throws when `this.mneeConfig` is
not loaded; converts the amount to atomic units via the SDK's
`toAtomicAmount` (an input, as the SDK is external), takes the first fee
tier whose range contains it (`Array.prototype.find`), throws when no
tier matches, and converts the tier's fee back via `fromAtomicAmount`. -/
def calculateFee (toAtomicAmount : ℚ → ℤ) (fromAtomicAmount : ℤ → ℚ)
    (mneeConfig : Option MneeConfig) (amount : ℚ) : Except String ℚ :=
  match mneeConfig with
  | none => .error "MNEE configuration not loaded"
  | some cfg =>
      match cfg.fees.find? (fun tier => inTier tier (toAtomicAmount amount)) with
      | none => .error "No fee tier found"
      | some feeTier => .ok (fromAtomicAmount feeTier.fee)

/-- `MneePaymentService.requestFromFaucet`: throws `'Faucet is only
available in sandbox environment'` unless `MNEE_ENVIRONMENT` is exactly
`'sandbox'`, before any rail call; then requires `MNEE_BOT_ADDRESS` and
performs the faucet call (outcome given by `faucetCall`). -/
def requestFromFaucet (faucetCall : Except String String) (env : MneeEnv)
    : Except String String × List RailCall :=
  if env.MNEE_ENVIRONMENT ≠ some "sandbox" then
    (.error "Faucet is only available in sandbox environment", [])
  else if falsyS env.MNEE_BOT_ADDRESS then
    (.error "MNEE bot address not configured", [])
  else
    match faucetCall with
    | .error e => (.error e, [.payoutFaucet])
    | .ok r => (.ok r, [.payoutFaucet])

/-! ## Escalation scheduler wiring (`index.js`, `startEscalationScheduler`) -/

/-- What `startEscalationScheduler` sets up: the value computed for the
local `interval` variable, and the cron expression actually passed to
`cron.schedule`. -/
structure SchedulerSetup where
  intervalMs : Nat
  cronExpr : String
  deriving DecidableEq, Repr

/-- `startEscalationScheduler` from `index.js`:
`const interval = process.env.ESCALATION_CHECK_INTERVAL || 3600000;`
followed by `cron.schedule('0 * * * *', ...)`.  The configured interval
is read (with the 1-hour default) but the schedule handed to the cron
library is the literal expression `'0 * * * *'`. -/
def startEscalationScheduler (escalationCheckInterval : Option Nat) : SchedulerSetup :=
  { intervalMs := escalationCheckInterval.getD 3600000
    cronExpr := "0 * * * *" }

/-! ## Bounty service (spec-modelled) and bounty routes (`routes/bounty.js`)

`bountyService` (`createBounty`, `escalateBounty`, `claimBounty`) is not
among the provided source files; only its caller, the bounty route
module, is.  Its operations are modelled from the spec (§4.1–4.2) where
a claim depends on them. -/

/-- Does the ledger already hold an active bounty for this
(repository, issue) pair? -/
def activeExists (ledger : List BountyRow) (repository : String) (issueId : Nat) : Bool :=
  ledger.any fun r =>
    r.repository = repository && r.issue_id = issueId && r.status = "active"

/-- Arguments the bounty-creation route passes to
`bountyService.createBounty`. -/
structure CreateArgs where
  repository : String
  issueId : Nat
  amount : ℚ
  maxAmount : ℚ
  issueUrl : String
  deriving DecidableEq, Repr

/-- Outcome of a creation attempt: the response value, the ledger after
the attempt, the arguments handed to `createBounty` (if it was invoked
at all), and the rail calls performed. -/
structure CreateOutcome where
  result : Except String (Nat × String)
  ledger : List BountyRow
  args : Option CreateArgs
  calls : List RailCall
  deriving Repr

/-- Modelled from the spec: `bountyService.createBounty` is not under
the provided sources (only its caller, the bounty route, is).  Per spec
§4.1 its preconditions are `amount > 0`, `maxAmount ≥ amount`, and no
existing active bounty for `(repository, issueId)`; validation errors
are rejected before any external call (§7); on success it funds the
escrow first (one on-chain call yielding a transaction reference and
block number, both supplied here by the `fund` input) and only then
inserts the ledger record with status `active` and escalation count 0,
returning the assigned identifier and funding reference. -/
def createBounty (fund : Except String (String × Nat)) (nextId : Nat)
    (ledger : List BountyRow) (a : CreateArgs) : CreateOutcome :=
  if ¬ (0 < a.amount) then
    { result := .error "amount must be positive", ledger := ledger
      args := some a, calls := [] }
  else if ¬ (a.amount ≤ a.maxAmount) then
    { result := .error "maxAmount must be at least amount", ledger := ledger
      args := some a, calls := [] }
  else if activeExists ledger a.repository a.issueId then
    { result := .error "active bounty already exists", ledger := ledger
      args := some a, calls := [] }
  else
    match fund with
    | .error e =>
        { result := .error e, ledger := ledger, args := some a
          calls := [.escrowFund] }
    | .ok (txHash, blockNumber) =>
        let row : BountyRow :=
          { defaultRow with
              bounty_id := nextId, repository := a.repository
              issue_id := a.issueId, issue_url := a.issueUrl
              initial_amount := a.amount, current_amount := a.amount
              max_amount := a.maxAmount, status := "active"
              transaction_hash := txHash, block_number := blockNumber
              escalation_count := 0 }
        { result := .ok (nextId, txHash), ledger := row :: ledger
          args := some a, calls := [.escrowFund] }

/-- The request body of `POST /api/bounties` as destructured by the
route (`repository, issueId, issueUrl, amount, maxAmount`). -/
structure CreateReq where
  repository : Option String
  issueId : Option Nat
  issueUrl : Option String
  amount : Option ℚ
  maxAmount : Option ℚ
  deriving Repr

/-- The bounty-creation route handler (`router.post('/')`): rejects with
a 400 validation error when any of `repository`, `issueId`, `issueUrl`,
`amount` is falsy, before calling anything; otherwise invokes
`createBounty` with `maxAmount: maxAmount || amount * 3`. -/
def handleCreate (fund : Except String (String × Nat)) (nextId : Nat)
    (ledger : List BountyRow) (req : CreateReq) : CreateOutcome :=
  if falsyS req.repository || falsyN req.issueId || falsyS req.issueUrl ||
      falsyQ req.amount then
    { result := .error "Missing required fields: repository, issueId, issueUrl, amount"
      ledger := ledger, args := none, calls := [] }
  else
    createBounty fund nextId ledger
      { repository := req.repository.getD ""
        issueId := req.issueId.getD 0
        amount := req.amount.getD 0
        maxAmount :=
          if falsyQ req.maxAmount then req.amount.getD 0 * 3
          else req.maxAmount.getD 0
        issueUrl := req.issueUrl.getD "" }

/-- Discriminated result of `bountyService.escalateBounty` as consumed
by the escalate route: a success payload or a named failure reason. -/
inductive EscalateResult
  | success (oldAmount newAmount : ℚ) (transactionHash : String)
  | failure (reason : String)
  deriving DecidableEq, Repr

/-- Modelled from the spec: `bountyService.escalateBounty` is not under
the provided sources (only its caller, the escalate route, is).  Per
spec §4.1: preconditions are that the bounty exists with status
`active`; when the current amount already equals the maximum amount it
returns the discriminated value `success:false, reason:
'max_amount_reached'` — a defined terminal branch, not an exception —
performing zero rail calls; otherwise it issues the on-chain escalation
call (outcome given by `escalate`) for the stepped amount capped at the
maximum, and on success updates the ledger row (new current amount,
incremented escalation count, last-escalation timestamp `now`). -/
def escalateBounty (escalate : Except String String) (step : ℚ → ℚ) (now : Nat)
    (ledger : List BountyRow) (bountyId : Nat)
    : EscalateResult × List BountyRow × List RailCall :=
  match ledger.find? (fun r => r.bounty_id = bountyId) with
  | none => (.failure "not_found", ledger, [])
  | some b =>
      if b.status ≠ "active" then (.failure "not_active", ledger, [])
      else if b.current_amount = b.max_amount then
        (.failure "max_amount_reached", ledger, [])
      else
        let newAmount := min (step b.current_amount) b.max_amount
        match escalate with
        | .error e => (.failure e, ledger, [.escrowEscalate])
        | .ok txHash =>
            (.success b.current_amount newAmount txHash,
             ledger.map (fun r =>
               if r.bounty_id = bountyId then
                 { r with current_amount := newAmount
                          escalation_count := r.escalation_count + 1
                          last_escalation := some now }
               else r),
             [.escrowEscalate])

/-- HTTP-level outcome of the escalate route. -/
inductive EscalateRouteResp
  | notFound
  | notActive
  | ok (r : EscalateResult)
  deriving DecidableEq, Repr

/-- The escalate route handler (`router.post('/:bountyId/escalate')`):
404 when the bounty does not exist, 400 `'Bounty is not active'` when
its status is not `active`, otherwise delegates to
`bountyService.escalateBounty` and relays its discriminated result. -/
def handleEscalate (escalate : Except String String) (step : ℚ → ℚ) (now : Nat)
    (ledger : List BountyRow) (bountyId : Nat)
    : EscalateRouteResp × List BountyRow × List RailCall :=
  match ledger.find? (fun r => r.bounty_id = bountyId) with
  | none => (.notFound, ledger, [])
  | some b =>
      if b.status ≠ "active" then (.notActive, ledger, [])
      else
        let (res, ledger2, calls) := escalateBounty escalate step now ledger bountyId
        (.ok res, ledger2, calls)

/-- Modelled from the spec: `bountyService.claimBounty` is not under the
provided sources (only its caller, the claim route, is).  Per spec
§4.1–4.2 it validates that the bounty exists with status `active`, pays
the solver through the payout rail (outcome given by `payout`), then
releases the escrow on-chain (outcome given by `release`), and persists
the ledger update (status `claimed`, claimed amount = current amount,
solver, claim transaction reference); if the escrow release fails after
a successful payout, the ledger is still marked `claimed` with the
payout confirmation as source of truth. -/
def claimBounty (payout release : Except String String)
    (ledger : List BountyRow) (bountyId : Nat) (solver : String)
    : Except String (ℚ × String) × List BountyRow × List RailCall :=
  match ledger.find? (fun r => r.bounty_id = bountyId) with
  | none => (.error "Bounty not found", ledger, [])
  | some b =>
      if b.status ≠ "active" then (.error "Bounty is not active", ledger, [])
      else
        match payout with
        | .error e => (.error e, ledger, [.payoutTransfer])
        | .ok payTx =>
            let claimedLedger := ledger.map fun r =>
              if r.bounty_id = bountyId then
                { r with status := "claimed", solver := some solver
                         claimed_amount := some r.current_amount
                         claim_transaction_hash := some payTx }
              else r
            match release with
            | .error _ =>
                (.ok (b.current_amount, payTx), claimedLedger,
                 [.payoutTransfer, .escrowRelease])
            | .ok _ =>
                (.ok (b.current_amount, payTx), claimedLedger,
                 [.payoutTransfer, .escrowRelease])

/-- HTTP-level outcome of the claim route. -/
inductive ClaimRouteResp
  | badRequestMissing
  | notFound
  | notActive
  | ok (amount : ℚ) (transactionHash : String) (solver : String)
  | serverError (msg : String)
  deriving DecidableEq, Repr

/-- Outcome of the claim route: the response, the ledger after the
request, whether `bountyService.claimBounty` was invoked, and the rail
calls performed. -/
structure ClaimRouteOut where
  resp : ClaimRouteResp
  ledger : List BountyRow
  invokedClaim : Bool
  calls : List RailCall
  deriving Repr

/-- The claim route handler (`router.post('/:bountyId/claim')`): 400
when `solver` or `pullRequestUrl` is falsy; 404 when the bounty does not
exist; 400 `'Bounty is not active'` when its status is not `active` —
each of these rejections happens before `bountyService.claimBounty` is
invoked and leaves the ledger untouched.  Otherwise it invokes
`claimBounty` and, on success, stores `pullRequestUrl` on the bounty and
responds with the paid amount and transaction reference. -/
def handleClaim (payout release : Except String String)
    (ledger : List BountyRow) (bountyId : Nat)
    (solver pullRequestUrl : Option String) : ClaimRouteOut :=
  if falsyS solver || falsyS pullRequestUrl then
    { resp := .badRequestMissing, ledger := ledger, invokedClaim := false, calls := [] }
  else
    match ledger.find? (fun r => r.bounty_id = bountyId) with
    | none => { resp := .notFound, ledger := ledger, invokedClaim := false, calls := [] }
    | some b =>
        if b.status ≠ "active" then
          { resp := .notActive, ledger := ledger, invokedClaim := false, calls := [] }
        else
          let (res, ledger2, calls) :=
            claimBounty payout release ledger bountyId (solver.getD "")
          match res with
          | .error e =>
              { resp := .serverError e, ledger := ledger2
                invokedClaim := true, calls := calls }
          | .ok (amount, txHash) =>
              { resp := .ok amount txHash (solver.getD "")
                ledger := ledger2.map fun r =>
                  if r.bounty_id = bountyId then
                    { r with pull_request_url := pullRequestUrl }
                  else r
                invokedClaim := true, calls := calls }

/-! ## Concrete instances used as witnesses and counterexamples -/

/-- A concrete active row used to exhibit what the schema admits. -/
def c2rowA : BountyRow :=
  { defaultRow with id := 1, bounty_id := 1, repository := "octo/fixflow"
                    issue_id := 7, status := "active" }

/-- A second active row for the same (repository, issue) pair, with a
different primary key and bounty identifier. -/
def c2rowB : BountyRow :=
  { defaultRow with id := 2, bounty_id := 2, repository := "octo/fixflow"
                    issue_id := 7, status := "active" }

/-- An active bounty row sitting exactly at its escalation ceiling. -/
def c3row : BountyRow :=
  { defaultRow with id := 1, bounty_id := 5, repository := "octo/fixflow"
                    issue_id := 9, initial_amount := 10, current_amount := 30
                    max_amount := 30, status := "active" }

/-- A bounty row that has already been claimed. -/
def c6row : BountyRow :=
  { defaultRow with id := 3, bounty_id := 8, repository := "octo/fixflow"
                    issue_id := 11, initial_amount := 10, current_amount := 15
                    max_amount := 30, status := "claimed"
                    solver := some "alice", claimed_amount := some 15 }

/-- A concrete fee schedule with two tiers. -/
def c9cfg : MneeConfig :=
  { decimals := 5, tokenId := "MNEE"
    fees := [⟨0, 99, 1⟩, ⟨100, 999, 7⟩] }

/-- A concrete stand-in for the SDK's `toAtomicAmount`. -/
def c9toA (q : ℚ) : ℤ := q.num

/-- A concrete stand-in for the SDK's `fromAtomicAmount`. -/
def c9fromA (z : ℤ) : ℚ := (z : ℚ) / 100000

/-- A concrete remote configuration for exercising `initialize`. -/
def c10cfg : MneeConfig :=
  { decimals := 5, tokenId := "MNEE", fees := [⟨0, 999999, 3⟩] }

/-- A concrete sandbox environment with all variables set. -/
def c10env : MneeEnv :=
  { MNEE_ENVIRONMENT := some "sandbox", MNEE_API_KEY := some "key"
    MNEE_BOT_WIF := some "wif", MNEE_BOT_ADDRESS := some "1botaddr" }

/-- The service state after a successful `initialize` under `c10env`. -/
def c10stOk : MneeServiceState :=
  { mnee := some ⟨"sandbox", "key"⟩, mneeConfig := some c10cfg
    initialized := true }

/-! ## Theorems -/

/-- C8: `validateAddress` is a total boolean-valued function on strings
(it never raises to the caller), and it returns `true` exactly when the
input matches the accepted recipient-address shape — a leading `1` or
`3` followed by 25 to 34 characters of the class `[a-km-zA-HJ-NP-Z1-9]`
— and `false` otherwise. -/
theorem validateAddress_correct (address : String) :
    validateAddress address = true ↔ AddressShape address := by
  unfold validateAddress AddressShape
  cases h : address.data with
  | nil =>
      constructor
      · intro hf; cases hf
      · rintro ⟨c, rest, hc, -⟩; cases hc
  | cons c rest =>
      simp only [Bool.and_eq_true, Bool.or_eq_true, decide_eq_true_eq,
        List.all_eq_true]
      constructor
      · rintro ⟨⟨⟨h13, h25⟩, h34⟩, hall⟩
        exact ⟨c, rest, rfl, h13, h25, h34, hall⟩
      · rintro ⟨c', rest', heq, h13, h25, h34, hall⟩
        injection heq with h1 h2
        subst h1; subst h2
        exact ⟨⟨⟨h13, h25⟩, h34⟩, hall⟩

/-- C2 counterexample: the schema created by `initDb` admits a table
holding two distinct rows that are both `active` for the same
(repository, issue_id) pair — no constraint in the schema makes that
pair unique among active bounties. -/
theorem schemaAdmits_duplicate_active_pair :
    ¬ (∀ rows : List BountyRow, schemaAdmits rows = true →
        ∀ r1 ∈ rows, ∀ r2 ∈ rows, r1 ≠ r2 → r1.status = "active" →
          r2.status = "active" →
          (r1.repository, r1.issue_id) ≠ (r2.repository, r2.issue_id)) := by
  intro hclaim
  have h := hclaim [c2rowA, c2rowB] (by decide) c2rowA (by simp)
    c2rowB (by simp) (by decide) rfl rfl
  exact h rfl

/-- C2 (amended): the uniqueness the `initDb` schema does enforce: any
two rows of an admitted table that share a `bounty_id` are the same row
(the `bounty_id INTEGER UNIQUE` constraint); and the schema admits
distinct active rows sharing a (repository, issue_id) pair, so that
pair's uniqueness among active bounties is not guaranteed by the
schema. -/
theorem schemaAdmits_unique_bountyId (rows : List BountyRow)
    (h : schemaAdmits rows = true) :
    (∀ r1 ∈ rows, ∀ r2 ∈ rows, r1.bounty_id = r2.bounty_id → r1 = r2) ∧
    ∃ rows2 : List BountyRow, schemaAdmits rows2 = true ∧
      ∃ r1 ∈ rows2, ∃ r2 ∈ rows2, r1 ≠ r2 ∧ r1.status = "active" ∧
        r2.status = "active" ∧ r1.repository = r2.repository ∧
        r1.issue_id = r2.issue_id := by
  constructor
  · have hp := (schemaAdmits_iff_pairwise rows).mp h
    intro r1 h1 r2 h2 hbid
    by_contra hne
    have := List.Pairwise.forall (R := fun a b : BountyRow =>
      a.id ≠ b.id ∧ a.bounty_id ≠ b.bounty_id)
      (fun a b hab => ⟨hab.1.symm, hab.2.symm⟩) hp h1 h2 hne
    exact this.2 hbid
  · exact ⟨[c2rowA, c2rowB], by decide, c2rowA, by simp, c2rowB, by simp,
      by decide, rfl, rfl, rfl, rfl⟩

/-- C2 witness: the amended theorem applied to a concrete admitted
table of two rows with distinct bounty identifiers. -/
theorem schemaAdmits_unique_bountyId_witness :
    schemaAdmits [c2rowA, c2rowB] = true ∧
    ((∀ r1 ∈ [c2rowA, c2rowB], ∀ r2 ∈ [c2rowA, c2rowB],
        r1.bounty_id = r2.bounty_id → r1 = r2) ∧
      ∃ rows2 : List BountyRow, schemaAdmits rows2 = true ∧
        ∃ r1 ∈ rows2, ∃ r2 ∈ rows2, r1 ≠ r2 ∧ r1.status = "active" ∧
          r2.status = "active" ∧ r1.repository = r2.repository ∧
          r1.issue_id = r2.issue_id) :=
  ⟨by decide, schemaAdmits_unique_bountyId [c2rowA, c2rowB] (by decide)⟩

/-- C5: the recurring escalation scan is NOT driven by the configured
escalation interval.  `startEscalationScheduler` computes the `interval`
value from `ESCALATION_CHECK_INTERVAL` (1-hour default) but the cron
expression actually scheduled is the hardcoded hourly `'0 * * * *'`,
identical for every configured interval: with the interval configured
to 60000 ms, the scan still fires hourly. -/
theorem startEscalationScheduler_ignores_interval (i : Option Nat) :
    (startEscalationScheduler i).cronExpr = "0 * * * *" ∧
    (startEscalationScheduler i).cronExpr =
      (startEscalationScheduler (some 60000)).cronExpr ∧
    (startEscalationScheduler (some 60000)).intervalMs = 60000 :=
  ⟨rfl, rfl, rfl⟩

/-- C7: `requestFromFaucet` fails whenever `MNEE_ENVIRONMENT` is not
exactly `'sandbox'`, throwing before the payment rail's faucet call —
the rail-call trace is empty. -/
theorem requestFromFaucet_non_sandbox (faucetCall : Except String String)
    (env : MneeEnv) (h : env.MNEE_ENVIRONMENT ≠ some "sandbox") :
    requestFromFaucet faucetCall env =
      (.error "Faucet is only available in sandbox environment", []) := by
  unfold requestFromFaucet
  simp [h]

/-- C7 witness: a production environment is rejected without a faucet
rail call. -/
theorem requestFromFaucet_non_sandbox_witness :
    ({ MNEE_ENVIRONMENT := some "production", MNEE_API_KEY := some "k"
       MNEE_BOT_WIF := some "w", MNEE_BOT_ADDRESS := some "a" } :
        MneeEnv).MNEE_ENVIRONMENT ≠ some "sandbox" ∧
    requestFromFaucet (.ok "faucet-tx")
      { MNEE_ENVIRONMENT := some "production", MNEE_API_KEY := some "k"
        MNEE_BOT_WIF := some "w", MNEE_BOT_ADDRESS := some "a" } =
      (.error "Faucet is only available in sandbox environment", []) :=
  ⟨by decide, requestFromFaucet_non_sandbox (.ok "faucet-tx") _ (by decide)⟩

/-- C3: for a bounty whose current amount equals its maximum amount,
`escalateBounty` returns the discriminated failure value with reason
`'max_amount_reached'` (a defined branch, not an exception), leaves the
ledger unchanged and performs zero rail calls. -/
theorem escalateBounty_max_amount_reached (escalate : Except String String)
    (step : ℚ → ℚ) (now : Nat) (ledger : List BountyRow) (bountyId : Nat)
    (b : BountyRow)
    (hfind : ledger.find? (fun r => r.bounty_id = bountyId) = some b)
    (hactive : b.status = "active")
    (hmax : b.current_amount = b.max_amount) :
    escalateBounty escalate step now ledger bountyId =
      (.failure "max_amount_reached", ledger, []) := by
  unfold escalateBounty
  rw [hfind]
  simp [hactive, hmax]

/-- C3 witness: escalating the concrete at-ceiling bounty returns the
`max_amount_reached` failure with an empty rail-call trace. -/
theorem escalateBounty_max_amount_reached_witness :
    ([c3row].find? (fun r => r.bounty_id = 5) = some c3row ∧
      c3row.status = "active" ∧ c3row.current_amount = c3row.max_amount) ∧
    escalateBounty (.ok "0xescalate") (fun q => q * 3 / 2) 42 [c3row] 5 =
      (.failure "max_amount_reached", [c3row], []) :=
  ⟨⟨rfl, rfl, rfl⟩,
    escalateBounty_max_amount_reached (.ok "0xescalate") (fun q => q * 3 / 2)
      42 [c3row] 5 c3row rfl rfl rfl⟩

/-- C6: a well-formed claim request against a bounty whose status is not
`'active'` (e.g. already claimed) is rejected by the route as an
expected failure branch — `bountyService.claimBounty` is never invoked,
no rail call happens, and the ledger is left exactly as it was. -/
theorem handleClaim_not_active_rejected (payout release : Except String String)
    (ledger : List BountyRow) (bountyId : Nat)
    (solver pullRequestUrl : Option String) (b : BountyRow)
    (hsolver : falsyS solver = false) (hpr : falsyS pullRequestUrl = false)
    (hfind : ledger.find? (fun r => r.bounty_id = bountyId) = some b)
    (hna : b.status ≠ "active") :
    handleClaim payout release ledger bountyId solver pullRequestUrl =
      { resp := .notActive, ledger := ledger, invokedClaim := false
        calls := [] } := by
  unfold handleClaim
  rw [hsolver, hpr, hfind]
  simp [hna]

/-- C6 witness: claiming the concrete already-claimed bounty is rejected
with `'Bounty is not active'`, without invoking `claimBounty` and
without touching the ledger. -/
theorem handleClaim_not_active_rejected_witness :
    (falsyS (some "bob") = false ∧
      falsyS (some "https://github.com/octo/fixflow/pull/1") = false ∧
      [c6row].find? (fun r => r.bounty_id = 8) = some c6row ∧
      c6row.status ≠ "active") ∧
    handleClaim (.ok "pay-tx") (.ok "rel-tx") [c6row] 8 (some "bob")
        (some "https://github.com/octo/fixflow/pull/1") =
      { resp := .notActive, ledger := [c6row], invokedClaim := false
        calls := [] } :=
  ⟨⟨rfl, rfl, rfl, by decide⟩,
    handleClaim_not_active_rejected (.ok "pay-tx") (.ok "rel-tx") [c6row] 8
      (some "bob") (some "https://github.com/octo/fixflow/pull/1") c6row
      rfl rfl rfl (by decide)⟩

/-- Every branch of `createBounty` records the arguments it was invoked
with. -/
theorem createBounty_args (fund : Except String (String × Nat)) (nextId : Nat)
    (ledger : List BountyRow) (a : CreateArgs) :
    (createBounty fund nextId ledger a).args = some a := by
  unfold createBounty
  split
  · rfl
  · split
    · rfl
    · split
      · rfl
      · cases fund <;> rfl

/-- When `createBounty` reports success, its preconditions held and it
prepended exactly one ledger row carrying the requested amounts. -/
theorem createBounty_ok_inserts (fund : Except String (String × Nat))
    (nextId : Nat) (ledger : List BountyRow) (a : CreateArgs) (bid : Nat)
    (tx : String)
    (h : (createBounty fund nextId ledger a).result = .ok (bid, tx)) :
    0 < a.amount ∧ a.amount ≤ a.maxAmount ∧
    ∃ row, (createBounty fund nextId ledger a).ledger = row :: ledger ∧
      row.initial_amount = a.amount ∧ row.current_amount = a.amount ∧
      row.max_amount = a.maxAmount ∧ row.status = "active" ∧
      row.escalation_count = 0 := by
  unfold createBounty at h ⊢
  by_cases h1 : ¬ (0 < a.amount)
  · rw [if_pos h1] at h
    exact absurd h (by simp)
  · rw [if_neg h1] at h ⊢
    by_cases h2 : ¬ (a.amount ≤ a.maxAmount)
    · rw [if_pos h2] at h
      exact absurd h (by simp)
    · rw [if_neg h2] at h ⊢
      by_cases h3 : activeExists ledger a.repository a.issueId = true
      · rw [if_pos h3] at h
        exact absurd h (by simp)
      · rw [if_neg h3] at h ⊢
        match fund with
        | .error e => exact absurd h (by simp)
        | .ok (txh, blk) =>
            exact ⟨not_not.mp h1, not_not.mp h2, _, rfl, rfl, rfl, rfl, rfl, rfl⟩

/-- C1: for a creation request whose `maxAmount` field is unset, the
route invokes `createBounty` with a maximum amount of exactly three
times the requested amount (`maxAmount: maxAmount || amount * 3`), and
any bounty row actually created from such a request satisfies
`max_amount = 3 × amount ≥ amount` (creation enforces `amount > 0`). -/
theorem handleCreate_default_max (fund : Except String (String × Nat))
    (nextId : Nat) (ledger : List BountyRow) (req : CreateReq)
    (hunset : req.maxAmount = none) :
    (∀ a, (handleCreate fund nextId ledger req).args = some a →
        a.maxAmount = a.amount * 3) ∧
    ∀ bid tx, (handleCreate fund nextId ledger req).result = .ok (bid, tx) →
      ∃ row, (handleCreate fund nextId ledger req).ledger = row :: ledger ∧
        row.max_amount = row.initial_amount * 3 ∧
        row.initial_amount ≤ row.max_amount ∧
        row.current_amount ≤ row.max_amount := by
  unfold handleCreate
  split
  · refine ⟨fun a ha => absurd ha (by simp), fun bid tx h => absurd h (by simp)⟩
  · rw [hunset]
    have hfal : falsyQ none = true := rfl
    rw [if_pos hfal]
    set a0 : CreateArgs :=
      { repository := req.repository.getD ""
        issueId := req.issueId.getD 0
        amount := req.amount.getD 0
        maxAmount := req.amount.getD 0 * 3
        issueUrl := req.issueUrl.getD "" }
    constructor
    · intro a ha
      rw [createBounty_args] at ha
      cases ha
      rfl
    · intro bid tx h
      obtain ⟨hpos, -, row, hled, hinit, hcur, hmax, -, -⟩ :=
        createBounty_ok_inserts fund nextId ledger a0 bid tx h
      have hm0 : a0.maxAmount = a0.amount * 3 := rfl
      refine ⟨row, hled, ?_, ?_, ?_⟩
      · rw [hmax, hinit]
      · rw [hmax, hinit, hm0]
        have hp : (0 : ℚ) < a0.amount := hpos
        linarith
      · rw [hmax, hcur, hm0]
        have hp : (0 : ℚ) < a0.amount := hpos
        linarith

/-- C1 witness: a concrete request with `maxAmount` unset; the route
passes `maxAmount = 30 = 3 × 10` to `createBounty` and the created row
respects `max_amount ≥ amount`. -/
theorem handleCreate_default_max_witness :
    (⟨some "octo/fixflow", some 7, some "https://github.com/octo/fixflow/issues/7",
        some 10, none⟩ : CreateReq).maxAmount = none ∧
    (∀ a, (handleCreate (.ok ("0xfund", 100)) 1 []
          ⟨some "octo/fixflow", some 7,
            some "https://github.com/octo/fixflow/issues/7", some 10, none⟩).args =
        some a → a.maxAmount = a.amount * 3) ∧
    ∀ bid tx, (handleCreate (.ok ("0xfund", 100)) 1 []
        ⟨some "octo/fixflow", some 7,
          some "https://github.com/octo/fixflow/issues/7", some 10, none⟩).result =
        .ok (bid, tx) →
      ∃ row, (handleCreate (.ok ("0xfund", 100)) 1 []
          ⟨some "octo/fixflow", some 7,
            some "https://github.com/octo/fixflow/issues/7", some 10, none⟩).ledger =
          row :: [] ∧
        row.max_amount = row.initial_amount * 3 ∧
        row.initial_amount ≤ row.max_amount ∧
        row.current_amount ≤ row.max_amount :=
  ⟨rfl, handleCreate_default_max (.ok ("0xfund", 100)) 1 [] _ rfl⟩

/-- C4: a creation request with a missing `repository`, `issueId`,
`issueUrl` or `amount`, or with `amount ≤ 0`, is rejected with a
validation error before anything happens: no escrow fund call, no other
rail call, and the ledger is untouched. -/
theorem handleCreate_invalid_rejected (fund : Except String (String × Nat))
    (nextId : Nat) (ledger : List BountyRow) (req : CreateReq)
    (hbad : falsyS req.repository = true ∨ falsyN req.issueId = true ∨
      falsyS req.issueUrl = true ∨ req.amount = none ∨
      ∃ a, req.amount = some a ∧ a ≤ 0) :
    (∃ e, (handleCreate fund nextId ledger req).result = .error e) ∧
    (handleCreate fund nextId ledger req).ledger = ledger ∧
    (handleCreate fund nextId ledger req).calls = [] := by
  unfold handleCreate
  split
  · exact ⟨⟨_, rfl⟩, rfl, rfl⟩
  · rename_i hval
    rw [Bool.or_eq_true, Bool.or_eq_true, Bool.or_eq_true] at hval
    push_neg at hval
    have hrepo : ¬ falsyS req.repository = true := hval.1.1.1
    have hissue : ¬ falsyN req.issueId = true := hval.1.1.2
    have hurl : ¬ falsyS req.issueUrl = true := hval.1.2
    have hamt : ¬ falsyQ req.amount = true := hval.2
    obtain ⟨a, hsome, hle⟩ : ∃ a, req.amount = some a ∧ a ≤ 0 := by
      rcases hbad with h | h | h | h | h
      · exact absurd h hrepo
      · exact absurd h hissue
      · exact absurd h hurl
      · exact absurd (by rw [h]; rfl) hamt
      · exact h
    have hne : a ≠ 0 := by
      intro h0
      exact hamt (by rw [hsome, h0]; rfl)
    have hneg : ¬ (0 < (req.amount.getD 0 : ℚ)) := by
      rw [hsome]
      simp only [Option.getD_some]
      intro hlt
      exact hne (le_antisymm hle (le_of_lt hlt))
    unfold createBounty
    rw [if_pos hneg]
    exact ⟨⟨_, rfl⟩, rfl, rfl⟩

/-- C4 witness: a concrete request with a negative amount is rejected
with no rail call and no ledger change. -/
theorem handleCreate_invalid_rejected_witness :
    ((⟨some "octo/fixflow", some 7,
        some "https://github.com/octo/fixflow/issues/7", some (-5), some 30⟩ :
        CreateReq).amount = some (-5) ∧ (-5 : ℚ) ≤ 0) ∧
    ((∃ e, (handleCreate (.ok ("0xfund", 100)) 1 []
        ⟨some "octo/fixflow", some 7,
          some "https://github.com/octo/fixflow/issues/7", some (-5), some 30⟩).result =
        .error e) ∧
      (handleCreate (.ok ("0xfund", 100)) 1 []
        ⟨some "octo/fixflow", some 7,
          some "https://github.com/octo/fixflow/issues/7", some (-5), some 30⟩).ledger =
        [] ∧
      (handleCreate (.ok ("0xfund", 100)) 1 []
        ⟨some "octo/fixflow", some 7,
          some "https://github.com/octo/fixflow/issues/7", some (-5), some 30⟩).calls =
        []) :=
  ⟨⟨rfl, by norm_num⟩,
    handleCreate_invalid_rejected (.ok ("0xfund", 100)) 1 [] _
      (.inr (.inr (.inr (.inr ⟨-5, rfl, by norm_num⟩))))⟩

/-- `List.find?` returns the element at the first index satisfying the
predicate. -/
theorem find?_eq_get_of_first {α : Type} (p : α → Bool) (l : List α)
    (i : Fin l.length) (hi : p (l.get i) = true)
    (hmin : ∀ j : Fin l.length, j < i → p (l.get j) = false) :
    l.find? p = some (l.get i) := by
  induction l with
  | nil => exact absurd i.isLt (by simp)
  | cons x xs ih =>
      cases i using Fin.cases with
      | zero => exact List.find?_cons_of_pos _ hi
      | succ i' =>
          have hx : p x = false :=
            hmin ⟨0, Nat.succ_pos _⟩ (by simp [Fin.lt_def])
          have hnx : ¬ p x = true := by
            rw [hx]
            exact Bool.false_ne_true
          rw [List.find?_cons_of_neg _ hnx]
          exact ih i' hi fun j hj =>
            hmin j.succ (Fin.succ_lt_succ_iff.mpr hj)

/-- C9: `calculateFee` errors for every call made before the remote
configuration is loaded; with a loaded configuration it errors for
every amount whose atomic conversion lies outside all fee tiers, and
otherwise returns (converted back from atomic units) the fee of the
first tier whose inclusive `[min, max]` range contains the converted
amount. -/
theorem calculateFee_first_matching_tier (toAtomic : ℚ → ℤ)
    (fromAtomic : ℤ → ℚ) (cfg : MneeConfig) (amount : ℚ) :
    calculateFee toAtomic fromAtomic none amount =
      .error "MNEE configuration not loaded" ∧
    ((∀ t ∈ cfg.fees, inTier t (toAtomic amount) = false) →
      calculateFee toAtomic fromAtomic (some cfg) amount =
        .error "No fee tier found") ∧
    ∀ i : Fin cfg.fees.length,
      inTier (cfg.fees.get i) (toAtomic amount) = true →
      (∀ j : Fin cfg.fees.length, j < i →
        inTier (cfg.fees.get j) (toAtomic amount) = false) →
      calculateFee toAtomic fromAtomic (some cfg) amount =
        .ok (fromAtomic (cfg.fees.get i).fee) := by
  refine ⟨rfl, ?_, ?_⟩
  · intro hall
    have hfind : cfg.fees.find? (fun tier => inTier tier (toAtomic amount)) = none := by
      rw [List.find?_eq_none]
      intro t ht hc
      simp [hall t ht] at hc
    show (match cfg.fees.find? (fun tier => inTier tier (toAtomic amount)) with
      | none => (.error "No fee tier found" : Except String ℚ)
      | some feeTier => .ok (fromAtomic feeTier.fee)) = .error "No fee tier found"
    rw [hfind]
  · intro i hi hmin
    have hfind :=
      find?_eq_get_of_first (fun tier => inTier tier (toAtomic amount))
        cfg.fees i hi hmin
    show (match cfg.fees.find? (fun tier => inTier tier (toAtomic amount)) with
      | none => (.error "No fee tier found" : Except String ℚ)
      | some feeTier => .ok (fromAtomic feeTier.fee)) =
        .ok (fromAtomic (cfg.fees.get i).fee)
    rw [hfind]

/-- C9 witness: with the concrete two-tier schedule, an amount in the
second tier yields that tier's fee, an amount below every tier errors,
and a call before configuration load errors. -/
theorem calculateFee_first_matching_tier_witness :
    (inTier (c9cfg.fees.get ⟨1, by decide⟩) (c9toA 500) = true ∧
      (∀ j : Fin c9cfg.fees.length, j < ⟨1, by decide⟩ →
        inTier (c9cfg.fees.get j) (c9toA 500) = false) ∧
      (∀ t ∈ c9cfg.fees, inTier t (c9toA (-1)) = false)) ∧
    calculateFee c9toA c9fromA (some c9cfg) 500 = .ok (c9fromA 7) ∧
    calculateFee c9toA c9fromA (some c9cfg) (-1) =
      .error "No fee tier found" ∧
    calculateFee c9toA c9fromA none 500 =
      .error "MNEE configuration not loaded" :=
  ⟨⟨by decide, by decide, by decide⟩,
    (calculateFee_first_matching_tier c9toA c9fromA c9cfg 500).2.2
      ⟨1, by decide⟩ (by decide) (by decide),
    (calculateFee_first_matching_tier c9toA c9fromA c9cfg (-1)).2.1 (by decide),
    (calculateFee_first_matching_tier c9toA c9fromA c9cfg 500).1⟩

/-- C10: the service's `initialized` flag becomes `true` only through a
successful `initialize` — success requires the SDK to have loaded, a
non-falsy API key, and a successful remote-configuration fetch, and a
failed `initialize` leaves the flag as it was (`false` from the
constructor) — and while `initialized` is false both `sendPayment` and
`getBalance` throw `'MNEE payment service not initialized'` with zero
rail calls. -/
theorem mneeService_initialized_invariant (sdkLoaded : Bool)
    (configFetch : Except String MneeConfig) (env : MneeEnv)
    (st : MneeServiceState) (transfer : Except String String)
    (balanceCall : Except String (ℚ × Option ℚ)) (recipient : String)
    (amount : ℚ) (bountyId : Nat) :
    (∀ st', mneeInitialize sdkLoaded configFetch env st = (st', none) →
      st'.initialized = true ∧ sdkLoaded = true ∧
      falsyS env.MNEE_API_KEY = false ∧
      ∃ cfg, configFetch = .ok cfg ∧ st'.mneeConfig = some cfg) ∧
    (∀ st' e, mneeInitialize sdkLoaded configFetch env st = (st', some e) →
      st'.initialized = st.initialized) ∧
    (st.initialized = false →
      sendPayment transfer env st recipient amount bountyId =
        (.error "MNEE payment service not initialized", []) ∧
      getBalance balanceCall env st =
        (.error "MNEE payment service not initialized", [])) := by
  refine ⟨?_, ?_, ?_⟩
  · intro st' h
    unfold mneeInitialize at h
    cases sdkLoaded with
    | false => simp at h
    | true =>
        rw [Bool.not_true, if_neg (by decide)] at h
        by_cases hk : falsyS env.MNEE_API_KEY = true
        · rw [if_pos hk] at h
          simp at h
        · rw [if_neg hk] at h
          cases configFetch with
          | error e => simp at h
          | ok cfg =>
              obtain ⟨rfl, -⟩ := Prod.mk.injEq .. ▸ h
              exact ⟨rfl, rfl, Bool.not_eq_true _ ▸ hk, cfg, rfl, rfl⟩
  · intro st' e h
    unfold mneeInitialize at h
    cases sdkLoaded with
    | false =>
        rw [Bool.not_false, if_pos rfl] at h
        obtain ⟨rfl, -⟩ := Prod.mk.injEq .. ▸ h
        rfl
    | true =>
        rw [Bool.not_true, if_neg (by decide)] at h
        by_cases hk : falsyS env.MNEE_API_KEY = true
        · rw [if_pos hk] at h
          obtain ⟨rfl, -⟩ := Prod.mk.injEq .. ▸ h
          rfl
        · rw [if_neg hk] at h
          cases configFetch with
          | error e2 =>
              obtain ⟨rfl, -⟩ := Prod.mk.injEq .. ▸ h
              rfl
          | ok cfg => simp at h
  · intro h0
    constructor
    · unfold sendPayment
      rw [h0]
      rfl
    · unfold getBalance
      rw [h0]
      rfl

/-- C10 witness: a successful concrete `initialize` sets the flag, a
failed one (SDK missing) leaves the constructor state untouched, and
both `sendPayment` and `getBalance` on the uninitialized constructor
state fail with no rail call. -/
theorem mneeService_initialized_invariant_witness :
    (mneeInitialize true (.ok c10cfg) c10env mneeInitialState =
        (c10stOk, none) ∧
      mneeInitialState.initialized = false) ∧
    (c10stOk.initialized = true ∧ true = true ∧
      falsyS c10env.MNEE_API_KEY = false ∧
      ∃ cfg, (.ok c10cfg : Except String MneeConfig) = .ok cfg ∧
        c10stOk.mneeConfig = some cfg) ∧
    mneeInitialState.initialized = mneeInitialState.initialized ∧
    sendPayment (.ok "txid") c10env mneeInitialState "1recipient" 5 1 =
      (.error "MNEE payment service not initialized", []) ∧
    getBalance (.ok (7, none)) c10env mneeInitialState =
      (.error "MNEE payment service not initialized", []) :=
  ⟨⟨rfl, rfl⟩,
    (mneeService_initialized_invariant true (.ok c10cfg) c10env
      mneeInitialState (.ok "txid") (.ok (7, none)) "1recipient" 5 1).1
      c10stOk rfl,
    (mneeService_initialized_invariant false (.ok c10cfg) c10env
      mneeInitialState (.ok "txid") (.ok (7, none)) "1recipient" 5 1).2.1
      mneeInitialState "MNEE SDK not loaded. Please run: npm install @mnee/ts-sdk"
      rfl,
    ((mneeService_initialized_invariant true (.ok c10cfg) c10env
      mneeInitialState (.ok "txid") (.ok (7, none)) "1recipient" 5 1).2.2
      rfl).1,
    ((mneeService_initialized_invariant true (.ok c10cfg) c10env
      mneeInitialState (.ok "txid") (.ok (7, none)) "1recipient" 5 1).2.2
      rfl).2⟩

end Fixflow
